import Mathlib

/-!
Verification of the RAG-MCP document-ingestion server.

This file gives a shallow embedding, in Lean, of the chunking, ingestion,
retrieval and configuration-resolution logic of the repository
(`rag_server.py`, `src/rag_server.py`, `chromadb_utils.py`, and the chunking
loop of `tests/simple_test_llamaparse.py`), and proves or refutes the frozen
specification claims about that logic.

Python strings are modelled as `List Char`; Python integers as `Int`/`Nat`;
calls into the external vector engine (ChromaDB), the filesystem and the
external parser are modelled as explicit fallible parameters (`Except`),
since the repository treats them as opaque collaborators.
-/

namespace RagMcp

/-! ## Python string primitives

The chunking loop of `tests/simple_test_llamaparse.py` manipulates Python
strings through slicing (`content[start:end]`), indexing (`content[end]`),
`str.rfind`, `str.strip` and `str.isspace`.  These are modelled here with
Python's exact semantics, including negative-index handling, because the
loop variable `start` can become negative.
-/

/-- Python `str.isspace` for a single character (ASCII whitespace set:
space, tab, newline, carriage return, vertical tab, form feed). -/
def pyIsSpace (c : Char) : Bool :=
  c = ' ' || c = '\t' || c = '\n' || c = '\r' || c = '\x0b' || c = '\x0c'

/-- Python `str.strip()`: remove leading and trailing whitespace. -/
def pyStrip (s : List Char) : List Char :=
  ((s.dropWhile pyIsSpace).reverse.dropWhile pyIsSpace).reverse

/-- Clamp a Python slice bound to `[0, len]`, with Python's negative-index
rule: a negative bound counts from the end of the string and is clamped
to 0 if it is still negative after adding the length. -/
def pyBound (len : Nat) (i : Int) : Nat :=
  if i < 0 then ((len : Int) + i).toNat else min i.toNat len

/-- Python slice `s[i:j]`. -/
def pySlice (s : List Char) (i j : Int) : List Char :=
  (s.take (pyBound s.length j)).drop (pyBound s.length i)

/-- Python indexing `s[i]`: negative indices count from the end; an
out-of-range index raises `IndexError`, modelled by `none`. -/
def pyGet (s : List Char) (i : Int) : Option Char :=
  if 0 ≤ (if i < 0 then i + s.length else i) then
    s.get? (if i < 0 then i + s.length else i).toNat
  else none

/-- Python `s.rfind(c)`: highest index at which `c` occurs in `s`,
or `-1` if `c` does not occur. -/
def pyRfind : List Char → Char → Int
  | [], _ => -1
  | a :: rest, c =>
    if 0 ≤ pyRfind rest c then pyRfind rest c + 1
    else if a = c then 0 else -1

/-! ## The chunker (`tests/simple_test_llamaparse.py`, `test_direct_function`)

```python
chunks = []
start = 0
while start < len(content):
    end = start + chunk_size
    chunk = content[start:end]
    if end < len(content) and not content[end].isspace():
        last_space = chunk.rfind(' ')
        if last_space > start:
            end = start + last_space
            chunk = content[start:end]
    chunks.append(chunk.strip())
    start = end - overlap
```

One loop iteration is `chunkStep`; the whole loop is the fuelled
`chunkLoop`.  `StepRes.err` models a raised `IndexError` (possible because
`start`, and hence `end`, can go negative, and `content[end]` raises when
`end < -len(content)`); `ChunkOut.fuelOut` means the fuel ran out before
the loop exited.  The local variables `end` and `chunk` of the source are
inlined.
-/

/-- Result of one iteration of the chunking `while` loop. -/
inductive StepRes where
  | done
  | err
  | next (start' : Int) (chunk : List Char)
  deriving Repr, DecidableEq

/-- One iteration of the chunking loop: either the loop guard fails
(`done`), or `content[end]` raises (`err`), or a chunk is appended and
`start` is advanced (`next`). -/
def chunkStep (content : List Char) (chunkSize overlap : Nat) (start : Int) : StepRes :=
  if start < (content.length : Int) then
    if start + chunkSize < (content.length : Int) then
      match pyGet content (start + chunkSize) with
      | none => .err
      | some c =>
        if pyIsSpace c then
          .next (start + chunkSize - overlap) (pyStrip (pySlice content start (start + chunkSize)))
        else
          if pyRfind (pySlice content start (start + chunkSize)) ' ' > start then
            .next (start + pyRfind (pySlice content start (start + chunkSize)) ' ' - overlap)
              (pyStrip (pySlice content start
                (start + pyRfind (pySlice content start (start + chunkSize)) ' ')))
          else
            .next (start + chunkSize - overlap) (pyStrip (pySlice content start (start + chunkSize)))
    else
      .next (start + chunkSize - overlap) (pyStrip (pySlice content start (start + chunkSize)))
  else .done

/-- Outcome of running the chunking loop with a given amount of fuel. -/
inductive ChunkOut where
  | out (chunks : List (List Char))
  | err
  | fuelOut
  deriving Repr, DecidableEq

/-- The fuelled chunking loop; `acc` is the `chunks` list built so far. -/
def chunkLoop (content : List Char) (chunkSize overlap : Nat) :
    Nat → Int → List (List Char) → ChunkOut
  | 0, _, _ => .fuelOut
  | fuel + 1, start, acc =>
    match chunkStep content chunkSize overlap start with
    | .done => .out acc
    | .err => .err
    | .next s c => chunkLoop content chunkSize overlap fuel s (acc ++ [c])

/-- Per-chunk metadata dictionary built by `test_direct_function`:
`{"source_file": ..., "file_type": ".txt", "chunk_index": i,
"total_chunks": len(chunks), "chunk_size": len(chunk),
"parsed_with": "direct_read"}`. -/
structure ChunkMeta where
  source_file : String
  file_type : String
  chunk_index : Nat
  total_chunks : Nat
  chunk_size : Nat
  parsed_with : String
  deriving Repr, DecidableEq

/-- The metadata list comprehension
`[{...} for i, chunk in enumerate(chunks)]`. -/
def mkChunkMetadatas (sourceFile : String) (chunks : List (List Char)) : List ChunkMeta :=
  chunks.enum.map fun ic =>
    { source_file := sourceFile
      file_type := ".txt"
      chunk_index := ic.1
      total_chunks := chunks.length
      chunk_size := ic.2.length
      parsed_with := "direct_read" }

/-! ## Metadata dictionaries

ChromaDB metadata dictionaries map string keys to strings or integers.
They are modelled as association lists that preserve insertion order
(Python dictionaries preserve insertion order). -/

/-- A metadata value: Python `str` or `int`. -/
inductive MVal where
  | s (v : String)
  | i (v : Int)
  deriving Repr, DecidableEq

/-- A Python dictionary with string keys, in insertion order. -/
abbrev Metadata := List (String × MVal)

/-- Dictionary lookup (`d[k]` / `k in d`). -/
def mlookup (m : Metadata) (k : String) : Option MVal :=
  match m.find? (fun kv => kv.1 = k) with
  | some kv => some kv.2
  | none => none

/-- Python `k in d`. -/
def mhasKey (m : Metadata) (k : String) : Bool := (mlookup m k).isSome

/-- How a metadata value renders inside a Python f-string. -/
def mvalStr : MVal → String
  | .s v => v
  | .i v => toString v

/-- Python `d.get(k, default)` rendered as a string. -/
def mgetStr (m : Metadata) (k d : String) : String :=
  match mlookup m k with
  | some v => mvalStr v
  | none => d

/-- Python `d.get(k, default)` for an integer-valued entry. -/
def mgetInt (m : Metadata) (k : String) (d : Int) : Int :=
  match mlookup m k with
  | some (.i v) => v
  | _ => d

/-- Python `d.update(kvs)`: existing keys are overwritten in place,
new keys are appended in order. -/
def mupdate (m : Metadata) (kvs : List (String × MVal)) : Metadata :=
  kvs.foldl (fun acc kv =>
    if mhasKey acc kv.1 then
      acc.map (fun kv' => if kv'.1 = kv.1 then (kv'.1, kv.2) else kv')
    else acc ++ [kv]) m

/-! ## `query_documents` (`rag_server.py` lines 252-312,
`src/rag_server.py` lines 239-318)

The ChromaDB collection is an opaque collaborator: `collection.query` is
modelled as a fallible function `doQuery` from the validated `n_results`
to a `QueryResult`; `Except.error e` models a raised exception whose
`str(e)` is `e`. -/

/-- The dictionary returned by `collection.query`: outer lists are indexed
by query text (the server always sends exactly one query text).  Distances
are modelled as rationals; the engine's floats are opaque to this core. -/
structure QueryResult where
  documents : List (List String)
  metadatas : List (List Metadata)
  distances : List (List Rat)
  deriving Repr

/-- `n_results` validation from `query_documents`:
`if n_results <= 0: n_results = 5 elif n_results > 20: n_results = 20`. -/
def clamp_n_results (n : Int) : Int :=
  if n ≤ 0 then 5 else if n > 20 then 20 else n

/-- Zero-padded 3-digit fractional part. -/
def padZeros3 (n : Nat) : String :=
  if n < 10 then "00" ++ toString n
  else if n < 100 then "0" ++ toString n
  else toString n

/-- Rendering of `f"{x:.3f}"` on the rational model of a float score
(truncation towards minus infinity; the exact float rounding of the
external engine is outside the embedding and unused by every claim). -/
def formatRat3 (q : Rat) : String :=
  if q < 0 then
    "-" ++ toString ((-(q * 1000).floor).toNat / 1000) ++ "." ++ padZeros3 ((-(q * 1000).floor).toNat % 1000)
  else
    toString ((q * 1000).floor.toNat / 1000) ++ "." ++ padZeros3 ((q * 1000).floor.toNat % 1000)

/-- The result-formatting loop of `query_documents` (the `for i, (doc,
metadata, distance) in enumerate(zip(documents, metadatas, distances))`
body plus the `response` assembly). -/
def formatQueryResult (include_metadata : Bool) (query : String)
    (documents : List String) (metadatas : List Metadata) (distances : List Rat) : String :=
  "Found " ++ toString documents.length ++ " relevant documents for query: '" ++ query ++ "'\n"
    ++ String.intercalate "\n"
      ((documents.zip (metadatas.zip distances)).enum.map fun it =>
        if include_metadata && !it.2.2.1.isEmpty then
          "\n--- Result " ++ toString (it.1 + 1) ++ " ---\n" ++ "Content: " ++ it.2.1 ++ "\n"
            ++ "Source: " ++ mgetStr it.2.2.1 "source_file" "Unknown" ++ "\n"
            ++ "Chunk: " ++ mgetStr it.2.2.1 "chunk_index" "Unknown" ++ " of "
            ++ mgetStr it.2.2.1 "total_chunks" "Unknown" ++ "\n"
            ++ "Similarity Score: " ++ formatRat3 (1 - it.2.2.2) ++ "\n"
        else
          "\n--- Result " ++ toString (it.1 + 1) ++ " ---\n" ++ "Content: " ++ it.2.1 ++ "\n")

/-- `query_documents` of the module-level server (`rag_server.py`).  The
surrounding `try` is modelled by the `Except` result of `doQuery`: a raised
exception is caught and turned into the `"Error querying documents: "`
string. -/
def query_documents (doQuery : Int → Except String QueryResult)
    (query : String) (n_results : Int) (include_metadata : Bool) : String :=
  if pyStrip query.data = [] then "Error: Query cannot be empty."
  else
    match doQuery (clamp_n_results n_results) with
    | .error e => "Error querying documents: " ++ e
    | .ok results =>
      match results.documents with
      | [] => "No relevant documents found for your query."
      | documents :: _ =>
        if documents.isEmpty then "No relevant documents found for your query."
        else
          formatQueryResult include_metadata query documents
            (match results.metadatas with
              | [] => List.replicate documents.length ([] : Metadata)
              | m :: _ => m)
            (match results.distances with
              | [] => List.replicate documents.length (0 : Rat)
              | d :: _ => d)

/-! ## `list_ingested_files` (`rag_server.py` lines 314-379,
`src/rag_server.py` lines 320-392) -/

/-- One value of the `file_info` dictionary. -/
structure FileInfo where
  file_name : String
  file_path : String
  file_type : String
  file_size : Int
  creation_date : String
  last_modified_date : String
  ingestion_method : String
  chunks_found : Nat
  total_chunk_size : Int
  deriving Repr, DecidableEq

/-- One iteration of the grouping loop of `list_ingested_files`: metadata
entries that are falsy or lack a `"file_name"` key are skipped; otherwise
the per-file record is created on first sight and its counters bumped. -/
def fileInfoStep (acc : List (String × FileInfo)) (metadata : Metadata) :
    List (String × FileInfo) :=
  if !metadata.isEmpty && mhasKey metadata "file_name" then
    (if (acc.find? (fun kv =>
          kv.1 = mgetStr metadata "file_name" "" ++ " (" ++ mgetStr metadata "file_path" "Unknown path" ++ ")")).isSome
      then acc
      else acc ++ [(mgetStr metadata "file_name" "" ++ " (" ++ mgetStr metadata "file_path" "Unknown path" ++ ")",
        { file_name := mgetStr metadata "file_name" ""
          file_path := mgetStr metadata "file_path" "Unknown path"
          file_type := mgetStr metadata "file_type" "Unknown"
          file_size := mgetInt metadata "file_size" 0
          creation_date := mgetStr metadata "creation_date" "Unknown"
          last_modified_date := mgetStr metadata "last_modified_date" "Unknown"
          ingestion_method := mgetStr metadata "ingestion_method" "Unknown"
          chunks_found := 0
          total_chunk_size := 0 })]).map
      fun kv =>
        if kv.1 = mgetStr metadata "file_name" "" ++ " (" ++ mgetStr metadata "file_path" "Unknown path" ++ ")" then
          (kv.1, { kv.2 with
            chunks_found := kv.2.chunks_found + 1
            total_chunk_size := kv.2.total_chunk_size + mgetInt metadata "chunk_size" 0 })
        else kv
  else acc

/-- The `file_info` grouping dictionary of `list_ingested_files`. -/
def buildFileInfo (metadatas : List Metadata) : List (String × FileInfo) :=
  metadatas.foldl fileInfoStep []

/-- Digit grouping for Python's `f"{n:,}"` format: insert `,` every three
digits, working on the reversed digit list. -/
def commaRev : List Char → Nat → List Char
  | [], _ => []
  | [c], _ => [c]
  | c :: c2 :: rest, 0 => c :: ',' :: commaRev (c2 :: rest) 2
  | c :: c2 :: rest, k + 1 => c :: commaRev (c2 :: rest) k

/-- Python `f"{n:,}"` for a natural number. -/
def pyFormatCommaNat (n : Nat) : String :=
  String.mk ((commaRev (toString n).data.reverse 2).reverse)

/-- Python `f"{n:,}"` for an integer. -/
def pyFormatComma (n : Int) : String :=
  if n < 0 then "-" ++ pyFormatCommaNat n.natAbs else pyFormatCommaNat n.toNat

/-- The per-file paragraph of the `list_ingested_files` report. -/
def formatFileEntry (i : Nat) (info : FileInfo) : String :=
  toString i ++ ". " ++ info.file_name ++ "\n"
    ++ "   Path: " ++ info.file_path ++ "\n"
    ++ "   Type: " ++ info.file_type ++ "\n"
    ++ "   Size: " ++ pyFormatComma info.file_size ++ " bytes\n"
    ++ "   Created: " ++ info.creation_date ++ "\n"
    ++ "   Modified: " ++ info.last_modified_date ++ "\n"
    ++ "   Chunks: " ++ toString info.chunks_found ++ "\n"
    ++ "   Total chunk size: " ++ pyFormatComma info.total_chunk_size ++ " characters\n"
    ++ "   Ingestion method: " ++ info.ingestion_method ++ "\n\n"

/-- `list_ingested_files` of the module-level server.  `collection.get`
is the opaque collaborator; `Except.error e` models a raised exception. -/
def list_ingested_files (getResult : Except String (List Metadata)) : String :=
  match getResult with
  | .error e => "Error listing ingested files: " ++ e
  | .ok metadatas =>
    if metadatas.isEmpty then "No files have been ingested yet."
    else if (buildFileInfo metadatas).isEmpty then "No files have been ingested yet."
    else
      "Ingested Files (" ++ toString (buildFileInfo metadatas).length ++ " total):\n\n"
        ++ String.join ((buildFileInfo metadatas).enum.map fun kv => formatFileEntry (kv.1 + 1) kv.2.2)
        ++ "Total chunks in database: "
        ++ toString ((buildFileInfo metadatas).foldl (fun a kv => a + kv.2.chunks_found) 0) ++ "\n"
        ++ "Total content size: "
        ++ pyFormatComma ((buildFileInfo metadatas).foldl (fun a kv => a + kv.2.total_chunk_size) 0)
        ++ " characters"

/-! ## Auto-ingestion (`rag_server.py` lines 150-247,
`src/rag_server.py` lines 154-237)

A loaded document (what `SimpleDirectoryReader.load_data()` returns) has
text, metadata and a generated id.  `collection.add` is the opaque
collaborator `add`; a per-document exception (parse error, decode error,
engine rejection) is `Except.error` and is caught by the per-document
`try/except ... continue`. -/

/-- One document returned by the directory reader. -/
structure Doc where
  text : String
  metadata : Metadata
  id_ : String
  deriving Repr, DecidableEq

/-- A stored collection entry `(id, document, metadata)`. -/
structure Entry where
  id : String
  document : String
  metadata : Metadata
  deriving Repr, DecidableEq

/-- The vector collection, as the ordered list of its entries. -/
abbrev Collection := List Entry

/-- `pathlib.Path(p).name`: the final path component. -/
def pathBasename (p : String) : String :=
  (p.splitOn "/").getLastD ""

/-- File-name resolution of the ingestion loop: `file_name` key first,
then the basename of `file_path`, else `"unknown"`. -/
def docFileName (doc : Doc) : String :=
  if mhasKey doc.metadata "file_name" then mgetStr doc.metadata "file_name" ""
  else if mhasKey doc.metadata "file_path" then pathBasename (mgetStr doc.metadata "file_path" "")
  else "unknown"

/-- The entry submitted to `collection.add` for one document: content,
id, and metadata updated with `file_name`, `ingestion_method` and
`chunk_size`. -/
def ingestEntry (doc : Doc) : Entry :=
  { id := doc.id_
    document := doc.text
    metadata := mupdate doc.metadata
      [("file_name", .s (docFileName doc)),
       ("ingestion_method", .s "auto_ingest"),
       ("chunk_size", .i doc.text.length)] }

/-- The `for doc in documents` loop of `auto_ingest_files`: a failing
`collection.add` (or any per-document exception) is caught and the loop
continues with the collection unchanged. -/
def auto_ingest_loop (add : Collection → Entry → Except String Collection)
    (docs : List Doc) (col : Collection) : Collection :=
  docs.foldl (fun c doc =>
    match add c (ingestEntry doc) with
    | .ok c' => c'
    | .error _ => c) col

/-- `auto_ingest_files`: resolving the data directory can raise
`ValueError` (modelled as `loaded = none`), in which case auto-ingestion
is skipped and the collection is left unchanged; otherwise the loaded
documents are ingested one by one. -/
def auto_ingest_files (add : Collection → Entry → Except String Collection)
    (loaded : Option (List Doc)) (col : Collection) : Collection :=
  match loaded with
  | none => col
  | some docs => auto_ingest_loop add docs col

/-! ## `reingest_data_directory` (`rag_server.py` lines 381-420,
`src/rag_server.py` lines 394-437)

The global collection handle is `Option Collection` (`None` before
initialization).  `recreate` models the
`delete_collection` + `create_collection` pair, whose exceptions the
surrounding `try` catches. -/

/-- `reingest_data_directory`: returns the new collection handle and the
caller-visible status string. -/
def reingest_data_directory (recreate : Except String Unit)
    (add : Collection → Entry → Except String Collection)
    (loaded : Option (List Doc)) (st : Option Collection) : Option Collection × String :=
  match st with
  | none => (none, "Error: Database is not initialized.")
  | some col =>
    match recreate with
    | .error e => (some col, "Error during reingestion: " ++ e)
    | .ok _ =>
      (some (auto_ingest_files add loaded []),
        "Successfully reingested data directory. Database now contains "
          ++ toString (auto_ingest_files add loaded []).length ++ " documents.")

/-- Modelled from the spec: `deleteCollection` of the Store Adapter
contract (§4.3), destroying the active collection. -/
def deleteCollection (_ : Option Collection) : Option Collection := none

/-- Modelled from the spec: `createCollection` of the Store Adapter
contract (§4.3), creating an empty named collection. -/
def createCollection (_ : Option Collection) : Option Collection := some []

/-- Modelled from the spec: `ingestDirectory` of the Ingestion Pipeline
contract (§4.4), ingesting the resolved data directory into the active
collection. -/
def ingestDirectory (add : Collection → Entry → Except String Collection)
    (loaded : Option (List Doc)) (st : Option Collection) : Option Collection :=
  match st with
  | none => none
  | some col => some (auto_ingest_files add loaded col)

/-- Modelled from the spec: the sequential composition
`deleteCollection` then `createCollection` then `ingestDirectory`
that §4.4 declares equivalent to re-ingestion. -/
def reingest_spec (add : Collection → Entry → Except String Collection)
    (loaded : Option (List Doc)) (st : Option Collection) : Option Collection :=
  ingestDirectory add loaded (createCollection (deleteCollection st))

/-! ## `get_rag_status` (`rag_server.py` lines 422-445) -/

/-- `get_rag_status`: `collection.count()` is the opaque fallible
collaborator; the `except` branch returns the error dictionary. -/
def get_rag_status (st : Option Collection) (count : Collection → Except String Nat) : Metadata :=
  match (match st with | some c => count c | none => Except.ok 0) with
  | .ok n =>
    [("status", .s "active"), ("database_type", .s "ChromaDB"),
     ("total_documents", .i (n : Int)), ("collection_name", .s "rag_documents"),
     ("persist_directory", .s "./chroma_db")]
  | .error e => [("status", .s "error"), ("error", .s e)]

/-! ## Directory resolution (`rag_server.py` lines 77-108,
`src/rag_server.py` lines 77-106)

The process environment and `Path.home()` are modelled by `Env`:
`home = none` means `Path.home()` raises.  In the source, the XDG default
`home_dir / '.local' / 'share'` is computed *before* `os.getenv` returns,
so a failing `Path.home()` falls through even when `XDG_DATA_HOME` is set.
`pathlib`'s `expanduser().resolve()` is the opaque parameter
`resolveAbs`. -/

/-- The relevant environment variables and `Path.home()` outcome. -/
structure Env where
  llama_rag_db_dir : Option String
  xdg_data_home : Option String
  home : Option String
  deriving Repr, DecidableEq

/-- `get_database_directory` of the module-level server: environment
override, then XDG standard location, then the `./chroma` fallback. -/
def get_database_directory (resolveAbs : String → String) (env : Env) : Except String String :=
  match env.llama_rag_db_dir with
  | some d => .ok (resolveAbs d)
  | none =>
    match env.home with
    | some homeDir =>
      .ok ((match env.xdg_data_home with
            | some x => x
            | none => homeDir ++ "/.local/share") ++ "/rag-server")
    | none => .ok "./chroma"

/-- The `ValueError` message of `RAGServer._get_database_directory`. -/
def dbDirConfigError : String :=
  "No database directory found. Please either:\n1. Set the LLAMA_RAG_DB_DIR environment variable to specify a database directory, or\n2. Ensure the XDG Base Directory standard location is accessible\n\nExamples:\n  export LLAMA_RAG_DB_DIR=/path/to/your/database\n  # Or ensure ~/.local/share is accessible for XDG standard"

/-- `RAGServer._get_database_directory` of the class-based server
(`src/rag_server.py`): same resolution order, but raising `ValueError`
instead of falling back to `./chroma`. -/
def src2_get_database_directory (resolveAbs : String → String) (env : Env) : Except String String :=
  match env.llama_rag_db_dir with
  | some d => .ok (resolveAbs d)
  | none =>
    match env.home with
    | some homeDir =>
      .ok ((match env.xdg_data_home with
            | some x => x
            | none => homeDir ++ "/.local/share") ++ "/rag-server")
    | none => .error dbDirConfigError

/-! ## `chromadb_utils.safe_reset_chromadb` and startup
(`chromadb_utils.py` lines 17-41, `rag_server.py` lines 43-75) -/

/-- `safe_reset_chromadb`: deletes the store directory if it exists; the
whole body is wrapped in `try/except`, so a failing `shutil.rmtree`
(modelled by `rmtree = .error e`) yields `False` instead of raising. -/
def safe_reset_chromadb (dirExists : Bool) (rmtree : Except String Unit) : Bool :=
  if dirExists then
    match rmtree with
    | .ok _ => true
    | .error _ => false
  else true

/-- `initialize_chromadb`: the boolean returned by `safe_reset_chromadb`
is discarded; the client and a fresh `rag_documents` collection are then
created (`createClient` models the two ChromaDB constructor calls, whose
failure propagates as a raise) and auto-ingestion runs. -/
def initialize_chromadb (dirExists : Bool) (rmtree : Except String Unit)
    (createClient : Except String Unit)
    (add : Collection → Entry → Except String Collection)
    (loaded : Option (List Doc)) : Except String (Option Collection) :=
  let _resetOk := safe_reset_chromadb dirExists rmtree
  match createClient with
  | .error e => .error e
  | .ok _ => .ok (some (auto_ingest_files add loaded ([] : Collection)))

/-! ## The class-based server's data-directory gate
(`src/rag_server.py` lines 135-152)

`RAGServer._check_data_directory_configured` resolves the data directory
(environment override, else an existing `./data`); `dataDir = none` models
the `ValueError` of `_get_data_directory`. -/

/-- The "no data directory" message of
`_check_data_directory_configured`. -/
def noDataDirMessage : String :=
  "No data directory is configured for this RAG system. The system cannot access any documents without a data directory.\n\nTo set up a data directory, you can:\n1. Set the LLAMA_RAG_DATA_DIR environment variable:\n   export LLAMA_RAG_DATA_DIR=/path/to/your/documents\n2. Create a 'data' directory in the current working directory:\n   mkdir data\n\nAfter setting up the data directory, add your documents to it and restart the server or use the reingest_data_directory tool to load them."

/-- `_check_data_directory_configured`. -/
def check_data_directory_configured (dataDir : Option String) : Bool × String :=
  match dataDir with
  | some p => (true, "Data directory configured: " ++ p)
  | none => (false, noDataDirMessage)

/-- `RAGServer.query_documents` of the class-based server: identical to
the module-level `query_documents` except for the data-directory gate
that runs first. -/
def src2_query_documents (dataDir : Option String) (doQuery : Int → Except String QueryResult)
    (query : String) (n_results : Int) (include_metadata : Bool) : String :=
  if (check_data_directory_configured dataDir).1 then
    query_documents doQuery query n_results include_metadata
  else (check_data_directory_configured dataDir).2

/-- `RAGServer.list_ingested_files` of the class-based server: identical
to the module-level version except for the data-directory gate. -/
def src2_list_ingested_files (dataDir : Option String)
    (getResult : Except String (List Metadata)) : String :=
  if (check_data_directory_configured dataDir).1 then list_ingested_files getResult
  else (check_data_directory_configured dataDir).2

/-! ## The claims under test, as stated -/

/-- Claim C1 as stated, at one `(text, chunkSize, overlap)` triple: the
chunking loop terminates, every appended chunk is non-empty after
trimming, and the attached `chunk_index` values are contiguous
`0..N-1`. -/
def chunkingClaim (text : List Char) (chunkSize overlap : Nat) : Prop :=
  ∃ fuel r, chunkLoop text chunkSize overlap fuel 0 [] = .out r
    ∧ (∀ c ∈ r, c ≠ [])
    ∧ (mkChunkMetadatas "sample_document.txt" r).map (fun m => m.chunk_index) = List.range r.length

/-- Claim C4 as stated, at one 12,000-character text: chunking with
`chunk_size=5000, overlap=800` produces exactly 3 chunks with
`chunk_index` 0,1,2 and `total_chunks=3` on each. -/
def chunkingScenarioA (text : List Char) : Prop :=
  ∃ fuel r, chunkLoop text 5000 800 fuel 0 [] = .out r
    ∧ r.length = 3
    ∧ (mkChunkMetadatas "sample_document.txt" r).map (fun m => m.chunk_index) = [0, 1, 2]
    ∧ ∀ m ∈ mkChunkMetadatas "sample_document.txt" r, m.total_chunks = 3

/-- Claim C2 as stated: with no environment override and an
undeterminable home directory, store-directory resolution surfaces the
configuration error rather than returning some other path. -/
def storeDirClaim : Prop :=
  ∀ (resolveAbs : String → String) (env : Env),
    env.llama_rag_db_dir = none → env.home = none →
    ∃ msg, get_database_directory resolveAbs env = .error msg

/-- Claim C3 as stated: the validated `n_results` always lies in
`[5, 20]`. -/
def nResultsClaim : Prop :=
  ∀ n : Int, 5 ≤ clamp_n_results n ∧ clamp_n_results n ≤ 20

/-- The input of the C1 counterexample. -/
def c1text : List Char := "   xyzzz".data

/-- The input of the C4 counterexample: 900 `x`, one space, 11099 `y`
(12,000 characters). -/
def c4text : List Char := List.replicate 900 'x' ++ ' ' :: List.replicate 11099 'y'

/-! ## Helper lemmas on the Python string primitives -/

theorem pyRfind_eq_neg_one {s : List Char} {c : Char} (h : c ∉ s) : pyRfind s c = -1 := by
  induction s with
  | nil => rfl
  | cons a rest ih =>
    have hac : ¬ a = c := fun he => h (he ▸ List.mem_cons_self a rest)
    have hrest : c ∉ rest := fun hm => h (List.mem_cons_of_mem a hm)
    simp [pyRfind, ih hrest, hac]

theorem pyRfind_block (n m : Nat) :
    pyRfind (List.replicate n 'x' ++ ' ' :: List.replicate m 'y') ' ' = n := by
  induction n with
  | zero =>
    have hy : pyRfind (List.replicate m 'y') ' ' = -1 :=
      pyRfind_eq_neg_one (by simp [List.mem_replicate])
    simp [pyRfind, hy]
  | succ n ih =>
    rw [List.replicate_succ, List.cons_append]
    show (if 0 ≤ pyRfind (List.replicate n 'x' ++ ' ' :: List.replicate m 'y') ' '
        then pyRfind (List.replicate n 'x' ++ ' ' :: List.replicate m 'y') ' ' + 1
        else if 'x' = ' ' then 0 else -1) = ((n + 1 : Nat) : Int)
    rw [ih, if_pos (Int.ofNat_nonneg n)]
    push_cast
    ring

theorem dropWhile_no_ws {s : List Char} (h : ∀ c ∈ s, pyIsSpace c = false) :
    s.dropWhile pyIsSpace = s := by
  cases s with
  | nil => rfl
  | cons a rest => simp [List.dropWhile_cons, h a (List.mem_cons_self a rest)]

theorem pyStrip_of_no_ws {s : List Char} (h : ∀ c ∈ s, pyIsSpace c = false) : pyStrip s = s := by
  rw [pyStrip, dropWhile_no_ws h,
    dropWhile_no_ws fun c hc => h c (List.mem_reverse.mp hc), List.reverse_reverse]

theorem pyStrip_replicate_x (k : Nat) :
    pyStrip (List.replicate k 'x') = List.replicate k 'x' :=
  pyStrip_of_no_ws fun c hc => by rw [List.eq_of_mem_replicate hc]; rfl

theorem pyGet_nonneg (s : List Char) (i : Int) (h0 : 0 ≤ i) :
    pyGet s i = s.get? i.toNat := by
  simp [pyGet, not_lt.mpr h0, h0]

theorem pyGet_some {s : List Char} {i : Int} (h0 : 0 ≤ i) (hlt : i < (s.length : Int)) :
    ∃ c, pyGet s i = some c ∧ c ∈ s := by
  have hn : i.toNat < s.length := by omega
  refine ⟨s.get ⟨i.toNat, hn⟩, ?_, List.get_mem s i.toNat hn⟩
  rw [pyGet_nonneg s i h0]
  exact List.get?_eq_get hn

theorem mem_pySlice {s : List Char} {i j : Int} {c : Char} (h : c ∈ pySlice s i j) : c ∈ s :=
  List.mem_of_mem_take (List.mem_of_mem_drop h)

theorem length_pySlice (s : List Char) (i j : Int) :
    (pySlice s i j).length = min (pyBound s.length j) s.length - pyBound s.length i := by
  simp [pySlice, List.length_drop, List.length_take]

theorem pySlice_ne_nil {s : List Char} {start : Int} {csz : Nat}
    (h0 : 0 ≤ start) (hlt : start < (s.length : Int)) (hc : 1 ≤ csz) :
    pySlice s start (start + csz) ≠ [] := by
  intro hnil
  have hlen := congrArg List.length hnil
  rw [length_pySlice, pyBound, if_neg (not_lt.mpr (by omega : (0 : Int) ≤ start + csz)),
    pyBound, if_neg (not_lt.mpr h0)] at hlen
  simp only [List.length_nil] at hlen
  omega

/-! ## Helper lemmas on the chunker -/

theorem chunkStep_done {content : List Char} {csz ov : Nat} {start : Int}
    (h : ¬ start < (content.length : Int)) :
    chunkStep content csz ov start = .done := by
  rw [chunkStep, if_neg h]

theorem chunkLoop_next {content : List Char} {csz ov : Nat} {start s : Int} {c : List Char}
    (h : chunkStep content csz ov start = .next s c) (fuel : Nat) (acc : List (List Char)) :
    chunkLoop content csz ov (fuel + 1) start acc = chunkLoop content csz ov fuel s (acc ++ [c]) := by
  simp [chunkLoop, h]

theorem chunkLoop_done {content : List Char} {csz ov : Nat} {start : Int}
    (h : chunkStep content csz ov start = .done) (fuel : Nat) (acc : List (List Char)) :
    chunkLoop content csz ov (fuel + 1) start acc = .out acc := by
  simp [chunkLoop, h]

theorem chunkStep_of_no_space {text : List Char} {csz ov : Nat} {start : Int}
    (hsp : ' ' ∉ text) (h0 : 0 ≤ start) (hlt : start < (text.length : Int)) :
    chunkStep text csz ov start =
      .next (start + csz - ov) (pyStrip (pySlice text start (start + csz))) := by
  rw [chunkStep, if_pos hlt]
  by_cases he : start + (csz : Int) < (text.length : Int)
  · rw [if_pos he]
    obtain ⟨c, hc, hcm⟩ := pyGet_some (by omega : (0 : Int) ≤ start + csz) he
    simp only [hc]
    by_cases hcs : pyIsSpace c = true
    · rw [if_pos hcs]
    · rw [if_neg hcs]
      have hrf : pyRfind (pySlice text start (start + csz)) ' ' = -1 :=
        pyRfind_eq_neg_one fun hm => hsp (mem_pySlice hm)
      rw [hrf, if_neg (by omega : ¬ (-1 : Int) > start)]
  · rw [if_neg he]

theorem mkChunkMetadatas_chunk_index (f : String) (chunks : List (List Char)) :
    (mkChunkMetadatas f chunks).map (fun m => m.chunk_index) = List.range chunks.length := by
  rw [mkChunkMetadatas, List.map_map]
  exact List.enum_map_fst chunks

theorem mkChunkMetadatas_total (f : String) (chunks : List (List Char)) :
    ∀ m ∈ mkChunkMetadatas f chunks, m.total_chunks = chunks.length := by
  intro m hm
  rw [mkChunkMetadatas] at hm
  obtain ⟨ic, -, rfl⟩ := List.mem_map.mp hm
  rfl

theorem chunkLoop_no_ws_out {text : List Char} {csz ov : Nat}
    (hws : ∀ c ∈ text, pyIsSpace c = false) (hov : ov < csz) :
    ∀ (fuel : Nat) (start : Int) (acc : List (List Char)),
      0 ≤ start →
      (text.length : Int) ≤ start + fuel * ((csz : Int) - ov) →
      (∀ c ∈ acc, c ≠ []) →
      ∃ r, chunkLoop text csz ov (fuel + 1) start acc = .out r ∧ ∀ c ∈ r, c ≠ [] := by
  have hsp : ' ' ∉ text := fun hm => by have := hws ' ' hm; simp [pyIsSpace] at this
  intro fuel
  induction fuel with
  | zero =>
    intro start acc h0 hb hacc
    have hge : ¬ start < (text.length : Int) := by
      simp only [Nat.cast_zero, zero_mul, add_zero] at hb
      omega
    exact ⟨acc, chunkLoop_done (chunkStep_done hge) 0 acc, hacc⟩
  | succ n ih =>
    intro start acc h0 hb hacc
    by_cases hlt : start < (text.length : Int)
    · rw [chunkLoop_next (chunkStep_of_no_space hsp h0 hlt)]
      apply ih
      · omega
      · have hd : ((n : Int) + 1) * ((csz : Int) - ov) = n * ((csz : Int) - ov) + ((csz : Int) - ov) := by
          ring
        push_cast at hb
        linarith
      · intro c hc
        rcases List.mem_append.mp hc with hc | hc
        · exact hacc c hc
        · have hcz : c = pyStrip (pySlice text start (start + csz)) := by
            simpa using hc
          have hslice : pySlice text start (start + csz) ≠ [] :=
            pySlice_ne_nil h0 hlt (by omega)
          have hstrip : pyStrip (pySlice text start (start + csz)) = pySlice text start (start + csz) :=
            pyStrip_of_no_ws fun x hx => hws x (mem_pySlice hx)
          rw [hcz, hstrip]
          exact hslice
    · exact ⟨acc, chunkLoop_done (chunkStep_done hlt) (n + 1) acc, hacc⟩

/-! ## Claim C1 -/

/-- C1 (amended): for every text containing no whitespace character and
every `0 < overlap < chunkSize`, the chunking loop terminates, every
appended chunk is non-empty after trimming, and the attached
`chunk_index` values are contiguous `0..N-1`.  (As originally stated,
over all texts, the claim is refuted by
`chunking_claim_counterexample`.) -/
theorem chunking_no_whitespace_ok (text : List Char) (csz ov : Nat)
    (h1 : 0 < ov) (h2 : ov < csz) (hws : ∀ c ∈ text, pyIsSpace c = false) :
    chunkingClaim text csz ov := by
  have hd : (1 : Int) ≤ (csz : Int) - ov := by omega
  have hb : (text.length : Int) ≤ 0 + (text.length : Int) * ((csz : Int) - ov) := by
    have hm := mul_le_mul_of_nonneg_left hd (by positivity : (0 : Int) ≤ (text.length : Int))
    rw [mul_one] at hm
    linarith
  obtain ⟨r, hout, hne⟩ :=
    chunkLoop_no_ws_out hws h2 text.length 0 [] le_rfl hb (by simp)
  exact ⟨text.length + 1, r, hout, hne, mkChunkMetadatas_chunk_index _ r⟩

/-- Witness for C1 (amended) at the whitespace-free text `"abcdefgh"`
with `chunk_size=5, overlap=2`. -/
theorem chunking_no_whitespace_ok_witness : chunkingClaim "abcdefgh".data 5 2 :=
  chunking_no_whitespace_ok "abcdefgh".data 5 2 (by decide) (by decide) (by decide)

/-- C1 counterexample: on the text `"   xyzzz"` with `chunk_size=5,
overlap=2` (so `0 < overlap < chunkSize`), the first iteration appends
the empty chunk `""` (a window trimmed to whitespace) and returns to
`start = 0`, so the loop re-appends that empty chunk forever: chunking
neither terminates nor keeps its chunks non-empty. -/
theorem chunking_claim_counterexample :
    chunkStep c1text 5 2 0 = .next 0 [] ∧ ¬ chunkingClaim c1text 5 2 := by
  refine ⟨by decide, ?_⟩
  rintro ⟨fuel, r, hout, -, -⟩
  have key : ∀ (f : Nat) (acc : List (List Char)), chunkLoop c1text 5 2 f 0 acc = .fuelOut := by
    intro f
    induction f with
    | zero => intro acc; rfl
    | succ n ih =>
      intro acc
      rw [chunkLoop_next (by decide : chunkStep c1text 5 2 0 = .next 0 [])]
      exact ih (acc ++ [[]])
  rw [key fuel []] at hout
  exact ChunkOut.noConfusion hout

/-! ## Concrete evaluation lemmas for the C4 counterexample text -/

theorem c4text_length : c4text.length = 12000 := by
  rw [c4text, List.length_append, List.length_replicate, List.length_cons,
    List.length_replicate]

theorem c4text_take_big (n : Nat) (h1 : 901 ≤ n) (h2 : n ≤ 12000) :
    c4text.take n = List.replicate 900 'x' ++ ' ' :: List.replicate (n - 901) 'y' := by
  rw [c4text, List.take_append_eq_append_take,
    List.take_of_length_le (by rw [List.length_replicate]; omega), List.length_replicate,
    ← List.singleton_append, List.take_append_eq_append_take,
    List.take_of_length_le (by simp; omega), List.take_replicate]
  have hm : min (n - 900 - 1) 11099 = n - 901 := by omega
  simp only [List.length_singleton, hm, List.singleton_append]

theorem c4text_take_le (n : Nat) (h : n ≤ 900) : c4text.take n = List.replicate n 'x' := by
  rw [c4text, List.take_append_eq_append_take, List.take_replicate]
  have h1 : min n 900 = n := by omega
  have h2 : n - (List.replicate 900 'x').length = 0 := by
    rw [List.length_replicate]; omega
  rw [h1, h2, List.take_zero, List.append_nil]

theorem c4_get_5000 : pyGet c4text 5000 = some 'y' := by
  rw [show (5000 : Int) = ((5000 : Nat) : Int) by norm_num,
    pyGet_nonneg _ _ (by positivity), Int.toNat_natCast, List.get?_eq_getElem?, c4text,
    List.getElem?_append_right (by rw [List.length_replicate]; omega), List.length_replicate,
    show (5000 : Nat) - 900 = 4099 + 1 by norm_num, List.getElem?_cons_succ,
    List.getElem?_replicate, if_pos (by norm_num)]

theorem c4_get_5100 : pyGet c4text 5100 = some 'y' := by
  rw [show (5100 : Int) = ((5100 : Nat) : Int) by norm_num,
    pyGet_nonneg _ _ (by positivity), Int.toNat_natCast, List.get?_eq_getElem?, c4text,
    List.getElem?_append_right (by rw [List.length_replicate]; omega), List.length_replicate,
    show (5100 : Nat) - 900 = 4199 + 1 by norm_num, List.getElem?_cons_succ,
    List.getElem?_replicate, if_pos (by norm_num)]

theorem c4_slice_0_5000 :
    pySlice c4text 0 5000 = List.replicate 900 'x' ++ ' ' :: List.replicate 4099 'y' := by
  rw [pySlice, c4text_length, pyBound, if_neg (by norm_num), pyBound, if_neg (by norm_num),
    show Int.toNat 5000 = 5000 from rfl, show Int.toNat 0 = 0 from rfl,
    show min 5000 12000 = 5000 by norm_num, show min 0 12000 = 0 by norm_num,
    List.drop_zero, c4text_take_big 5000 (by norm_num) (by norm_num)]

theorem c4_slice_0_900 : pySlice c4text 0 900 = List.replicate 900 'x' := by
  rw [pySlice, c4text_length, pyBound, if_neg (by norm_num), pyBound, if_neg (by norm_num),
    show Int.toNat 900 = 900 from rfl, show Int.toNat 0 = 0 from rfl,
    show min 900 12000 = 900 by norm_num, show min 0 12000 = 0 by norm_num,
    List.drop_zero, c4text_take_le 900 le_rfl]

theorem c4_slice_100_5100 :
    pySlice c4text 100 5100 = List.replicate 800 'x' ++ ' ' :: List.replicate 4199 'y' := by
  rw [pySlice, c4text_length, pyBound, if_neg (by norm_num), pyBound, if_neg (by norm_num),
    show Int.toNat 5100 = 5100 from rfl, show Int.toNat 100 = 100 from rfl,
    show min 5100 12000 = 5100 by norm_num, show min 100 12000 = 100 by norm_num,
    c4text_take_big 5100 (by norm_num) (by norm_num),
    show (5100 : Nat) - 901 = 4199 by norm_num,
    List.drop_append_eq_append_drop, List.drop_replicate, List.length_replicate,
    show (100 : Nat) - 900 = 0 by norm_num, List.drop_zero,
    show (900 : Nat) - 100 = 800 by norm_num]

theorem c4_slice_100_900 : pySlice c4text 100 900 = List.replicate 800 'x' := by
  rw [pySlice, c4text_length, pyBound, if_neg (by norm_num), pyBound, if_neg (by norm_num),
    show Int.toNat 900 = 900 from rfl, show Int.toNat 100 = 100 from rfl,
    show min 900 12000 = 900 by norm_num, show min 100 12000 = 100 by norm_num,
    c4text_take_le 900 le_rfl, List.drop_replicate,
    show (900 : Nat) - 100 = 800 by norm_num]

theorem c4_step0 : chunkStep c4text 5000 800 0 = .next 100 (List.replicate 900 'x') := by
  unfold chunkStep
  rw [if_pos (by rw [c4text_length]; norm_num), if_pos (by rw [c4text_length]; norm_num)]
  norm_num
  rw [c4_get_5000]
  simp only [if_neg (by decide : ¬ pyIsSpace 'y' = true)]
  rw [c4_slice_0_5000, pyRfind_block 900 4099,
    if_pos (by norm_num : ((900 : Nat) : Int) > 0)]
  norm_num
  rw [c4_slice_0_900, pyStrip_replicate_x]

theorem c4_step100 : chunkStep c4text 5000 800 100 = .next 100 (List.replicate 800 'x') := by
  unfold chunkStep
  rw [if_pos (by rw [c4text_length]; norm_num), if_pos (by rw [c4text_length]; norm_num)]
  norm_num
  rw [c4_get_5100]
  simp only [if_neg (by decide : ¬ pyIsSpace 'y' = true)]
  rw [c4_slice_100_5100, pyRfind_block 800 4199,
    if_pos (by norm_num : ((800 : Nat) : Int) > 100)]
  norm_num
  rw [c4_slice_100_900, pyStrip_replicate_x]

/-! ## Claim C4 -/

/-- C4 (amended): every 12,000-character text that contains no space
character is chunked by `chunk_size=5000, overlap=800` into exactly 3
chunks, with `chunk_index` 0,1,2 and `total_chunks=3` on each.  (As
originally stated, over all 12,000-character texts, the claim is refuted
by `scenarioA_counterexample`.) -/
theorem scenarioA_no_space (text : List Char) (hlen : text.length = 12000)
    (hsp : ' ' ∉ text) : chunkingScenarioA text := by
  have hlt : ∀ s : Int, s < 12000 → s < (text.length : Int) := by
    intro s hs; rw [hlen]; exact_mod_cast hs
  have h0 := @chunkStep_of_no_space text 5000 800 0 hsp
    (by norm_num) (hlt 0 (by norm_num))
  have h1 := @chunkStep_of_no_space text 5000 800 4200 hsp
    (by norm_num) (hlt 4200 (by norm_num))
  have h2 := @chunkStep_of_no_space text 5000 800 8400 hsp
    (by norm_num) (hlt 8400 (by norm_num))
  norm_num at h0 h1 h2
  have h3 : chunkStep text 5000 800 12600 = .done :=
    chunkStep_done (by rw [hlen]; norm_num)
  refine ⟨4, [pyStrip (pySlice text 0 5000), pyStrip (pySlice text 4200 9200),
    pyStrip (pySlice text 8400 13400)], ?_, rfl, ?_, ?_⟩
  · rw [chunkLoop_next h0, chunkLoop_next h1, chunkLoop_next h2, chunkLoop_done h3]
    rfl
  · rw [mkChunkMetadatas_chunk_index]
    rfl
  · exact mkChunkMetadatas_total _ _


/-- Witness for C4 (amended) at the 12,000-character space-free text
`'z' * 12000`. -/
theorem scenarioA_no_space_witness : chunkingScenarioA (List.replicate 12000 'z') :=
  scenarioA_no_space (List.replicate 12000 'z') (List.length_replicate 12000 'z')
    fun h => absurd (List.eq_of_mem_replicate h) (by decide)

/-- C4 counterexample: `c4text` is a 12,000-character text (900 `x`, one
space, 11099 `y`) on which the loop reaches the state `start = 100` after
one iteration and then repeats it forever (each window's last space sits
exactly `overlap` characters after `start`), so chunking with
`chunk_size=5000, overlap=800` never produces any chunk list at all, let
alone 3 chunks. -/
theorem scenarioA_counterexample :
    c4text.length = 12000 ∧ ¬ chunkingScenarioA c4text := by
  refine ⟨c4text_length, ?_⟩
  rintro ⟨fuel, r, hout, -, -, -⟩
  have key : ∀ (f : Nat) (acc : List (List Char)),
      chunkLoop c4text 5000 800 f 100 acc = .fuelOut := by
    intro f
    induction f with
    | zero => intro acc; rfl
    | succ n ih =>
      intro acc
      rw [chunkLoop_next c4_step100]
      exact ih (acc ++ [List.replicate 800 'x'])
  cases fuel with
  | zero => exact ChunkOut.noConfusion hout
  | succ n =>
    rw [chunkLoop_next c4_step0, key n] at hout
    exact ChunkOut.noConfusion hout

/-! ## Claim C3 (`n_results` validation) -/

/-- C3 (amended): the validated `n_results` always lies in `[1, 20]` and
is never zero or negative: `n_results <= 0` becomes 5, `n_results > 20`
becomes 20, but values `1..20` - including `1..4`, below the claimed
lower bound 5 - pass through unchanged.  (As originally stated, with
range `[5, 20]`, the claim is refuted by
`n_results_claim_counterexample`.) -/
theorem clamp_n_results_spec :
    ∀ n : Int, 1 ≤ clamp_n_results n ∧ clamp_n_results n ≤ 20 ∧
      (n ≤ 0 → clamp_n_results n = 5) ∧ (20 < n → clamp_n_results n = 20) ∧
      (1 ≤ n → n ≤ 20 → clamp_n_results n = n) := by
  intro n
  unfold clamp_n_results
  split_ifs <;> omega

/-- Witness for C3 (amended) at `n_results = 0`, `50`, `7` and `-3`. -/
theorem clamp_n_results_spec_witness :
    clamp_n_results 0 = 5 ∧ clamp_n_results 50 = 20 ∧ clamp_n_results 7 = 7 ∧
      1 ≤ clamp_n_results (-3) :=
  ⟨(clamp_n_results_spec 0).2.2.1 (by norm_num),
   (clamp_n_results_spec 50).2.2.2.1 (by norm_num),
   (clamp_n_results_spec 7).2.2.2.2 (by norm_num) (by norm_num),
   (clamp_n_results_spec (-3)).1⟩

/-- C3 counterexample: `n_results = 3` is below the claimed range
`[5, 20]` but is not clamped - it is passed to `collection.query`
unchanged, as the instrumented backend observes. -/
theorem n_results_claim_counterexample :
    clamp_n_results 3 = 3 ∧
      query_documents (fun k => if k = 3 then .error "n was 3" else .ok ⟨[], [], []⟩)
        "hello" 3 true = "Error querying documents: n was 3" ∧
      ¬ nResultsClaim := by
  refine ⟨rfl, by decide, fun h => ?_⟩
  have h3 := (h 3).1
  rw [show clamp_n_results 3 = 3 from rfl] at h3
  exact absurd h3 (by norm_num)

/-! ## Claim C2 (store-directory resolution) -/

/-- C2 (amended): both resolvers use the environment override first and
the XDG per-user location second; when even the home directory cannot be
determined, the class-based server's `_get_database_directory` surfaces
the configuration `ValueError`, while the module-level
`get_database_directory` instead falls back to the server-relative
`./chroma` path.  (The claim as stated - no further fallback in either
version - is refuted by `store_dir_claim_counterexample`.) -/
theorem database_directory_resolution (resolveAbs : String → String) (env : Env) :
    (∀ d, env.llama_rag_db_dir = some d →
      get_database_directory resolveAbs env = .ok (resolveAbs d) ∧
      src2_get_database_directory resolveAbs env = .ok (resolveAbs d)) ∧
    (env.llama_rag_db_dir = none → ∀ h, env.home = some h →
      get_database_directory resolveAbs env =
        .ok ((match env.xdg_data_home with
              | some x => x
              | none => h ++ "/.local/share") ++ "/rag-server") ∧
      src2_get_database_directory resolveAbs env = get_database_directory resolveAbs env) ∧
    (env.llama_rag_db_dir = none → env.home = none →
      get_database_directory resolveAbs env = .ok "./chroma" ∧
      src2_get_database_directory resolveAbs env = .error dbDirConfigError) := by
  obtain ⟨dd, xdg, hm⟩ := env
  refine ⟨?_, ?_, ?_⟩
  · rintro d rfl
    exact ⟨rfl, rfl⟩
  · rintro rfl h rfl
    exact ⟨rfl, rfl⟩
  · rintro rfl rfl
    exact ⟨rfl, rfl⟩

/-- Witness for C2 (amended) at concrete environments exercising all
three resolution outcomes. -/
theorem database_directory_resolution_witness :
    get_database_directory id ⟨some "/tmp/db", none, none⟩ = .ok "/tmp/db" ∧
    get_database_directory id ⟨none, some "/xdg", some "/home/u"⟩ = .ok ("/xdg" ++ "/rag-server") ∧
    get_database_directory id ⟨none, none, some "/home/u"⟩ =
      .ok ("/home/u" ++ "/.local/share" ++ "/rag-server") ∧
    src2_get_database_directory id ⟨none, none, none⟩ = .error dbDirConfigError :=
  ⟨((database_directory_resolution id ⟨some "/tmp/db", none, none⟩).1 "/tmp/db" rfl).1,
   ((database_directory_resolution id ⟨none, some "/xdg", some "/home/u"⟩).2.1 rfl "/home/u" rfl).1,
   ((database_directory_resolution id ⟨none, none, some "/home/u"⟩).2.1 rfl "/home/u" rfl).1,
   ((database_directory_resolution id ⟨none, none, none⟩).2.2 rfl rfl).2⟩

/-- C2 counterexample: with `LLAMA_RAG_DB_DIR` unset and `Path.home()`
failing, the module-level `get_database_directory` returns the `./chroma`
fallback path instead of surfacing a configuration error. -/
theorem store_dir_claim_counterexample :
    get_database_directory id ⟨none, none, none⟩ = .ok "./chroma" ∧
      src2_get_database_directory id ⟨none, none, none⟩ = .error dbDirConfigError ∧
      ¬ storeDirClaim := by
  refine ⟨rfl, rfl, fun h => ?_⟩
  obtain ⟨msg, hmsg⟩ := h id ⟨none, none, none⟩ rfl rfl
  rw [show get_database_directory id ⟨none, none, none⟩ = .ok "./chroma" from rfl] at hmsg
  exact Except.noConfusion hmsg

/-! ## Claim C8 (empty query rejected before any store call) -/

/-- C8: an empty or whitespace-only query makes `query_documents` return
the validation error without touching the collection: the result is the
fixed message for every backend `doQuery`, so no store call can influence
it.  For the class-based server the same holds whenever the
data-directory gate passes (with an unconfigured data directory that
gate returns its configuration message first, still without any store
call). -/
theorem empty_query_rejected (query : String) (hq : pyStrip query.data = []) :
    (∀ (doQuery : Int → Except String QueryResult) (n : Int) (m : Bool),
      query_documents doQuery query n m = "Error: Query cannot be empty.") ∧
    (∀ (p : String) (doQuery : Int → Except String QueryResult) (n : Int) (m : Bool),
      src2_query_documents (some p) doQuery query n m = "Error: Query cannot be empty.") := by
  constructor
  · intro f n m
    rw [query_documents, if_pos hq]
  · intro p f n m
    rw [src2_query_documents]
    rw [if_pos (by rfl), query_documents, if_pos hq]

/-- Witness for C8 at the whitespace-only query `"   "`. -/
theorem empty_query_rejected_witness :
    query_documents (fun _ => .ok ⟨[["doc"]], [], []⟩) "   " 5 true
      = "Error: Query cannot be empty." ∧
    src2_query_documents (some "/data") (fun _ => .ok ⟨[["doc"]], [], []⟩) "   " 5 true
      = "Error: Query cannot be empty." :=
  ⟨(empty_query_rejected "   " (by decide)).1 _ 5 true,
   (empty_query_rejected "   " (by decide)).2 "/data" _ 5 true⟩

/-! ## Claim C5 (error propagation policy) -/

theorem ne_empty_of_append_left (s t : String) (h : s.data ≠ []) : s ++ t ≠ "" := by
  intro he
  apply h
  have h2 := congrArg String.data he
  rw [String.data_append] at h2
  exact (List.append_eq_nil.mp h2).1

theorem query_documents_ne_empty (f : Int → Except String QueryResult)
    (q : String) (n : Int) (m : Bool) : query_documents f q n m ≠ "" := by
  rw [query_documents]
  split_ifs with h
  · decide
  · cases hf : f (clamp_n_results n) with
    | error e =>
      dsimp only
      exact ne_empty_of_append_left _ _ (by decide)
    | ok r =>
      dsimp only
      cases hd : r.documents with
      | nil =>
        dsimp only
        decide
      | cons d rest =>
        dsimp only
        by_cases hde : d.isEmpty = true
        · rw [if_pos hde]
          decide
        · rw [if_neg hde, formatQueryResult]
          exact ne_empty_of_append_left _ _ (by
            intro hc
            have hl := congrArg List.length hc
            simp [String.data_append] at hl)

theorem list_ingested_files_ne_empty (g : Except String (List Metadata)) :
    list_ingested_files g ≠ "" := by
  cases g with
  | error e =>
    show "Error listing ingested files: " ++ e ≠ ""
    exact ne_empty_of_append_left _ _ (by decide)
  | ok ms =>
    show (if ms.isEmpty then "No files have been ingested yet."
      else if (buildFileInfo ms).isEmpty then "No files have been ingested yet."
      else _) ≠ ""
    split_ifs with h1 h2
    · decide
    · decide
    · exact ne_empty_of_append_left _ _ (by
        intro hc
        have hl := congrArg List.length hc
        simp [String.data_append] at hl)

/-- C5: every caller-facing operation catches its internal exceptions and
returns a descriptive failure string (or error status dictionary) instead
of raising, and an empty result is always reported as the explicit
"no results" / "no files" message, never as an empty string. -/
theorem error_propagation_policy :
    (∀ (f : Int → Except String QueryResult) (q : String) (n : Int) (m : Bool) (e : String),
      pyStrip q.data ≠ [] → f (clamp_n_results n) = .error e →
        query_documents f q n m = "Error querying documents: " ++ e) ∧
    (∀ (f : Int → Except String QueryResult) (q : String) (n : Int) (m : Bool) (r : QueryResult),
      pyStrip q.data ≠ [] → f (clamp_n_results n) = .ok r → r.documents = [] →
        query_documents f q n m = "No relevant documents found for your query.") ∧
    (∀ (f : Int → Except String QueryResult) (q : String) (n : Int) (m : Bool) (r : QueryResult)
      (rest : List (List String)),
      pyStrip q.data ≠ [] → f (clamp_n_results n) = .ok r → r.documents = [] :: rest →
        query_documents f q n m = "No relevant documents found for your query.") ∧
    (∀ (f : Int → Except String QueryResult) (q : String) (n : Int) (m : Bool),
      query_documents f q n m ≠ "") ∧
    (∀ e, list_ingested_files (.error e) = "Error listing ingested files: " ++ e) ∧
    (list_ingested_files (.ok []) = "No files have been ingested yet.") ∧
    (∀ g, list_ingested_files g ≠ "") ∧
    (∀ recreate add loaded, reingest_data_directory recreate add loaded none
      = (none, "Error: Database is not initialized.")) ∧
    (∀ e add loaded (col : Collection), reingest_data_directory (.error e) add loaded (some col)
      = (some col, "Error during reingestion: " ++ e)) ∧
    (∀ recreate add loaded st, (reingest_data_directory recreate add loaded st).2 ≠ "") ∧
    (∀ (c : Collection) count e, count c = .error e →
      get_rag_status (some c) count = [("status", .s "error"), ("error", .s e)]) ∧
    (∀ st count, mlookup (get_rag_status st count) "status" ≠ none) := by
  refine ⟨?_, ?_, ?_, query_documents_ne_empty, fun e => rfl, rfl,
    list_ingested_files_ne_empty, fun recreate add loaded => rfl, ?_, ?_, ?_, ?_⟩
  · intro f q n m e hq hf
    rw [query_documents, if_neg hq, hf]
  · intro f q n m r hq hf hd
    rw [query_documents, if_neg hq, hf]
    simp only [hd]
  · intro f q n m r rest hq hf hd
    rw [query_documents, if_neg hq, hf]
    simp only [hd, List.isEmpty_nil, if_pos]
  · intro e add loaded col
    rfl
  · intro recreate add loaded st
    cases st with
    | none =>
      show ("Error: Database is not initialized." : String) ≠ ""
      decide
    | some col =>
      cases recreate with
      | error e =>
        show "Error during reingestion: " ++ e ≠ ""
        exact ne_empty_of_append_left _ _ (by decide)
      | ok u =>
        show "Successfully reingested data directory. Database now contains "
          ++ toString (auto_ingest_files add loaded []).length ++ " documents." ≠ ""
        intro hc
        have hd2 := congrArg String.data hc
        rw [String.data_append, String.data_append] at hd2
        exact absurd (List.append_eq_nil.mp (List.append_eq_nil.mp hd2).1).1 (by decide)
  · intro c count e hce
    show (match count c with
      | .ok n => [("status", MVal.s "active"), ("database_type", MVal.s "ChromaDB"),
          ("total_documents", MVal.i (n : Int)), ("collection_name", MVal.s "rag_documents"),
          ("persist_directory", MVal.s "./chroma_db")]
      | .error e => [("status", MVal.s "error"), ("error", MVal.s e)]) = _
    rw [hce]
  · intro st count
    rw [get_rag_status.eq_def]
    cases hcc : (match st with | some c => count c | none => Except.ok 0) with
    | ok n => simp [mlookup]
    | error e => simp [mlookup]

/-- Witness for C5 at concrete failing and empty backends. -/
theorem error_propagation_policy_witness :
    query_documents (fun _ => .error "boom") "hi" 5 true = "Error querying documents: boom" ∧
    query_documents (fun _ => .ok ⟨[], [], []⟩) "hi" 5 true
      = "No relevant documents found for your query." ∧
    query_documents (fun _ => .ok ⟨[[]], [], []⟩) "hi" 5 true
      = "No relevant documents found for your query." ∧
    list_ingested_files (.error "x") = "Error listing ingested files: x" ∧
    reingest_data_directory (.error "y") (fun c _ => .ok c) none (some [])
      = (some [], "Error during reingestion: y") ∧
    get_rag_status (some []) (fun _ => .error "z")
      = [("status", .s "error"), ("error", .s "z")] :=
  ⟨error_propagation_policy.1 _ "hi" 5 true "boom" (by decide) rfl,
   error_propagation_policy.2.1 _ "hi" 5 true ⟨[], [], []⟩ (by decide) rfl rfl,
   error_propagation_policy.2.2.1 _ "hi" 5 true ⟨[[]], [], []⟩ [] (by decide) rfl rfl,
   error_propagation_policy.2.2.2.2.1 "x",
   error_propagation_policy.2.2.2.2.2.2.2.2.1 "y" (fun c _ => .ok c) none [],
   error_propagation_policy.2.2.2.2.2.2.2.2.2.2.1 [] (fun _ => .error "z") "z" rfl⟩

/-! ## Claim C6 (a failing document never aborts the batch) -/

/-- C6: if adding one document fails, the loop catches the exception and
continues: the whole batch behaves exactly as if the failing document had
been removed, and every document after it is still processed. -/
theorem single_document_failure_skipped
    (add : Collection → Entry → Except String Collection)
    (pre : List Doc) (d : Doc) (post : List Doc) (col : Collection) (e : String)
    (hfail : add (auto_ingest_loop add pre col) (ingestEntry d) = .error e) :
    auto_ingest_loop add (pre ++ d :: post) col
      = auto_ingest_loop add post (auto_ingest_loop add pre col) ∧
    auto_ingest_loop add (pre ++ d :: post) col = auto_ingest_loop add (pre ++ post) col := by
  have h1 : auto_ingest_loop add (pre ++ d :: post) col
      = auto_ingest_loop add (d :: post) (auto_ingest_loop add pre col) := by
    simp [auto_ingest_loop, List.foldl_append]
  have h2 : auto_ingest_loop add (d :: post) (auto_ingest_loop add pre col)
      = auto_ingest_loop add post (auto_ingest_loop add pre col) := by
    rw [auto_ingest_loop, List.foldl_cons, hfail]
    rfl
  have h3 : auto_ingest_loop add (pre ++ post) col
      = auto_ingest_loop add post (auto_ingest_loop add pre col) := by
    simp [auto_ingest_loop, List.foldl_append]
  exact ⟨h1.trans h2, (h1.trans h2).trans h3.symm⟩

/-- Witness for C6: a three-document batch whose middle document is
rejected by the store ingests exactly the first and third documents. -/
theorem single_document_failure_skipped_witness :
    auto_ingest_loop
      (fun c en => if en.id = "bad" then .error "rejected" else .ok (c ++ [en]))
      [⟨"ta", [], "a"⟩, ⟨"tb", [], "bad"⟩, ⟨"tc", [], "c"⟩] []
    = auto_ingest_loop
      (fun c en => if en.id = "bad" then .error "rejected" else .ok (c ++ [en]))
      [⟨"ta", [], "a"⟩, ⟨"tc", [], "c"⟩] [] :=
  (single_document_failure_skipped
    (fun c en => if en.id = "bad" then .error "rejected" else .ok (c ++ [en]))
    [⟨"ta", [], "a"⟩] ⟨"tb", [], "bad"⟩ [⟨"tc", [], "c"⟩] [] "rejected" rfl).2

/-! ## Claim C7 (re-ingestion as delete + create + ingest) -/

/-- C7: on the success path, `reingest_data_directory` computes exactly
the spec composition `deleteCollection` then `createCollection` then
`ingestDirectory`: the resulting collection is the data directory
ingested into a fresh empty collection, independent of every previously
stored document. -/
theorem reingest_equiv (add : Collection → Entry → Except String Collection)
    (loaded : Option (List Doc)) (col col' : Collection) :
    (reingest_data_directory (.ok ()) add loaded (some col)).1
      = reingest_spec add loaded (some col) ∧
    (reingest_data_directory (.ok ()) add loaded (some col)).1
      = some (auto_ingest_files add loaded []) ∧
    (reingest_data_directory (.ok ()) add loaded (some col)).1
      = (reingest_data_directory (.ok ()) add loaded (some col')).1 ∧
    (reingest_data_directory (.ok ()) add loaded (some col)).2
      = "Successfully reingested data directory. Database now contains "
        ++ toString (auto_ingest_files add loaded []).length ++ " documents." :=
  ⟨rfl, rfl, rfl, rfl⟩

/-! ## Claim C9 (documents without `file_name` are invisible to the report) -/

theorem foldl_fileInfoStep_filter :
    ∀ (ms : List Metadata) (init : List (String × FileInfo)),
      ms.foldl fileInfoStep init
        = (ms.filter fun m => !m.isEmpty && mhasKey m "file_name").foldl fileInfoStep init := by
  intro ms
  induction ms with
  | nil => intro init; rfl
  | cons m rest ih =>
    intro init
    rw [List.foldl_cons]
    simp only [List.filter_cons]
    by_cases hp : (!m.isEmpty && mhasKey m "file_name") = true
    · rw [if_pos hp, List.foldl_cons]
      exact ih _
    · have hstep : fileInfoStep init m = init := by
        rw [fileInfoStep, if_neg hp]
      rw [hstep, if_neg hp]
      exact ih init

/-- C9: metadata entries lacking a `"file_name"` key are silently skipped
by the grouping of `list_ingested_files`: a non-empty collection whose
entries all lack the key yields the same "No files have been ingested
yet." response as an empty collection, and in general the report equals
the report over only the entries that do carry the key, so keyless
entries contribute to no per-file or corpus-wide total. -/
theorem list_files_ignores_missing_file_name (ms : List Metadata)
    (hnf : ∀ m ∈ ms, mhasKey m "file_name" = false) :
    list_ingested_files (.ok ms) = "No files have been ingested yet." ∧
    (∀ p, src2_list_ingested_files (some p) (.ok ms) = "No files have been ingested yet.") ∧
    (∀ ms' : List Metadata, list_ingested_files (.ok ms')
      = list_ingested_files (.ok (ms'.filter fun m => !m.isEmpty && mhasKey m "file_name"))) := by
  have hbuild : ∀ ms' : List Metadata,
      buildFileInfo ms' = buildFileInfo (ms'.filter fun m => !m.isEmpty && mhasKey m "file_name") := by
    intro ms'
    rw [buildFileInfo, buildFileInfo, foldl_fileInfoStep_filter]
  have hfe : ms.filter (fun m => !m.isEmpty && mhasKey m "file_name") = [] :=
    List.filter_eq_nil_iff.mpr fun m hm => by simp [hnf m hm]
  have hb0 : buildFileInfo ms = [] := by
    rw [hbuild, hfe]
    rfl
  have hmain : ∀ ms' : List Metadata, list_ingested_files (.ok ms')
      = list_ingested_files (.ok (ms'.filter fun m => !m.isEmpty && mhasKey m "file_name")) := by
    intro ms'
    by_cases h1 : ms' = []
    · subst h1
      rfl
    · by_cases h2 : ms'.filter (fun m => !m.isEmpty && mhasKey m "file_name") = []
      · have hz : buildFileInfo ms' = [] := by
          rw [hbuild, h2]
          rfl
        rw [list_ingested_files.eq_def, list_ingested_files.eq_def, h2]
        simp [List.isEmpty_iff, h1, hz]
      · rw [list_ingested_files.eq_def, list_ingested_files.eq_def]
        dsimp only
        rw [hbuild ms']
        simp [List.isEmpty_iff, h1, h2]
  refine ⟨?_, ?_, hmain⟩
  · rw [list_ingested_files.eq_def]
    simp [hb0]
  · intro p
    rw [src2_list_ingested_files, if_pos (by rfl), list_ingested_files.eq_def]
    simp [hb0]

/-- Witness for C9 at a non-empty collection none of whose metadata
entries has a `"file_name"` key. -/
theorem list_files_ignores_missing_file_name_witness :
    list_ingested_files (.ok [[("chunk_size", .i 5)], [("foo", .s "bar")]])
      = "No files have been ingested yet." :=
  (list_files_ignores_missing_file_name [[("chunk_size", .i 5)], [("foo", .s "bar")]]
    (by decide)).1

/-! ## Claim C10 (`safe_reset_chromadb` never raises; startup ignores it) -/

/-- C10: `safe_reset_chromadb` is total: it returns `False` exactly when
deleting an existing store directory fails and `True` otherwise
(including when the directory does not exist); `initialize_chromadb`
discards that boolean, so the client and the fresh collection are created
(and auto-ingestion runs) whatever the reset outcome was. -/
theorem safe_reset_policy :
    (∀ rm : Except String Unit, safe_reset_chromadb false rm = true) ∧
    safe_reset_chromadb true (.ok ()) = true ∧
    (∀ e, safe_reset_chromadb true (.error e) = false) ∧
    (∀ (dirExists : Bool) (rm rm' : Except String Unit) createClient add loaded,
      initialize_chromadb dirExists rm createClient add loaded
        = initialize_chromadb dirExists rm' createClient add loaded) ∧
    (∀ (dirExists : Bool) (rm : Except String Unit) add loaded,
      initialize_chromadb dirExists rm (.ok ()) add loaded
        = .ok (some (auto_ingest_files add loaded []))) :=
  ⟨fun _ => rfl, rfl, fun _ => rfl, fun _ _ _ _ _ _ => rfl, fun _ _ _ _ => rfl⟩

end RagMcp
